import Mathlib

/-!
# Verification of `hillmaker/scenario.py` (Scenario front-end)

Shallow embedding of the Scenario configuration/validation front-end of the
hillmaker package (`src/hillmaker/scenario.py`) and proofs of the spec's
claims about it.

Modelling conventions:
* Timestamps are integers (nanoseconds since the epoch), matching the
  `numpy.datetime64[ns]` values the validators convert to.  A possibly-missing
  timestamp cell (`NaT`) is `Option Int`; pandas comparisons involving `NaT`
  evaluate to `False`, which the `optLtNaT` / `optGeNaT` helpers mirror.
* A pandas `DataFrame` of stop records is a `List StopRow`; `StopRow` carries
  the cells of the `in_field`, `out_field` and `cat_field` columns plus an
  opaque payload `other` standing for all remaining columns of the caller's
  frame.  Row order and multiplicity are those of the frame.
* Every pandas operation used by the source (`pd.DataFrame` from a dict of
  columns, boolean-mask `.loc`, `reset_index(drop=True)`) returns a fresh
  frame, so the whole pipeline is a pure function from the input frame to the
  preprocessed frame; the state after construction is passed explicitly as a
  `Scenario` record holding both frames.
* Python float percentile bounds (`confloat(ge=0.0, le=1.0)`) are modelled
  over `Rat`: only order comparisons against the exactly representable
  constants 0.0 and 1.0 are involved.
* A raising pydantic validator is a function into `Except String _`.
-/

deriving instance DecidableEq for Except

/-- `EdgeBinsEnum` (scenario.py lines 21-23): occupancy contribution method
for arrival and departure bins. -/
inductive EdgeBinsEnum where
  | FRACTIONAL
  | ENTIRE
deriving DecidableEq, Repr

/-- Integer value of `EdgeBinsEnum` (it is an `IntEnum`: FRACTIONAL=1, ENTIRE=2). -/
def EdgeBinsEnum.toInt : EdgeBinsEnum → Int
  | .FRACTIONAL => 1
  | .ENTIRE => 2

/-- `VerbosityEnum` (scenario.py lines 26-29). -/
inductive VerbosityEnum where
  | WARNING
  | INFO
  | DEBUG
deriving DecidableEq, Repr

/-- Integer value of `VerbosityEnum` (WARNING=0, INFO=1, DEBUG=2). -/
def VerbosityEnum.toInt : VerbosityEnum → Int
  | .WARNING => 0
  | .INFO => 1
  | .DEBUG => 2

/-- One row of the caller's `stops_df`.  `entry?` and `exit?` are the cells of
the `in_field` and `out_field` columns (`none` = missing timestamp `NaT`),
`cat?` the cell of the `cat_field` column when the frame has one, and `other`
the cells of all remaining columns (opaque to the front-end). -/
structure StopRow where
  entry? : Option Int
  exit? : Option Int
  cat? : Option Int
  other : List Int
deriving DecidableEq, Repr

/-- pandas semantics of `series < bound` on a datetime column: a missing
timestamp (`NaT`) compares `False`. -/
def optLtNaT : Option Int → Int → Bool
  | some a, b => a < b
  | none, _ => false

/-- pandas semantics of `series >= bound` on a datetime column: a missing
timestamp (`NaT`) compares `False`. -/
def optGeNaT : Option Int → Int → Bool
  | some a, b => b ≤ a
  | none, _ => false

/-- The column selection of `preprocess_stops_df` (scenario.py lines 219-223):
`pd.DataFrame({in_field: ..., out_field: ...})` keeps only the in/out columns,
plus the category column when `cat_field` is not `None`.  The fresh frame drops
every other column of the caller's frame. -/
def projectRow (cat_field : Option String) (r : StopRow) : StopRow :=
  { entry? := r.entry?
    exit? := r.exit?
    cat? := match cat_field with
      | some _ => r.cat?
      | none => none
    other := [] }

/-- The boolean mask of `preprocess_stops_df` (scenario.py lines 226-230):
`(in < end) & (~in.isna()) & (~out.isna()) & (out >= start)`. -/
def keepRow (start_analysis_dt end_analysis_dt : Int) (r : StopRow) : Bool :=
  optLtNaT r.entry? end_analysis_dt && !r.entry?.isNone && !r.exit?.isNone &&
    optGeNaT r.exit? start_analysis_dt

/-- `Scenario.preprocess_stops_df` (scenario.py lines 199-235): build the
projected copy of `stops_df`, filter it by the overlap/missing-timestamp mask,
and reset the index (a no-op on the list-of-rows model). -/
def preprocess_stops_df (cat_field : Option String)
    (start_analysis_dt end_analysis_dt : Int) (stops_df : List StopRow) :
    List StopRow :=
  (stops_df.map (projectRow cat_field)).filter
    (keepRow start_analysis_dt end_analysis_dt)

/-- `Scenario.bin_size_minutes_divides` (scenario.py lines 168-183): raise
unless `bin_size_minutes` divides into 1440 with no remainder.  Python `%` on
a positive right operand agrees with `Int.emod`. -/
def bin_size_minutes_divides (v : Int) : Except String Int :=
  if 1440 % v > 0 then
    .error "bin_size_minutes must divide into 1440 with no remainder"
  else
    .ok v

/-- `Scenario.date_relationship` (scenario.py lines 185-197): start date for
the analysis must be before the end date. -/
def date_relationship (start_analysis_dt end_analysis_dt : Int) :
    Except String Unit :=
  if end_analysis_dt ≤ start_analysis_dt then
    .error "end date must be > start date"
  else
    .ok ()

/-- The per-element constraint `confloat(ge=0.0, le=1.0)` on the
`percentiles` field (scenario.py line 120). -/
def validate_percentile (p : Rat) : Except String Rat :=
  if 0 ≤ p ∧ p ≤ 1 then .ok p
  else .error "Input should be less than or equal to 1 and greater than or equal to 0"

/-- Elementwise validation of the `percentiles` list (scenario.py line 120):
pydantic checks each element against `confloat(ge=0.0, le=1.0)` and fails on
the first violation. -/
def percentiles_validate : List Rat → Except String (List Rat)
  | [] => .ok []
  | p :: ps =>
    match validate_percentile p with
    | .error m => .error m
    | .ok q =>
      match percentiles_validate ps with
      | .error m => .error m
      | .ok qs => .ok (q :: qs)

/-- The datetime-like values accepted for `start_analysis_dt` /
`end_analysis_dt` (scenario.py lines 113-114:
`date | datetime | pd.Timestamp | np.datetime64`), each carried by its
position on the timeline: a `date` by days since the epoch, a `datetime` by
microseconds, a `Timestamp` or `datetime64` by nanoseconds. -/
inductive DatetimeLike where
  | date (days : Int)
  | datetime (us : Int)
  | timestamp (ns : Int)
  | datetime64 (ns : Int)
deriving DecidableEq, Repr

/-- A `numpy.datetime64[ns]` value, the type the date validator converts to. -/
structure Datetime64 where
  ns : Int
deriving DecidableEq, Repr

/-- Nanoseconds since the epoch denoted by a datetime-like value. -/
def DatetimeLike.toNs : DatetimeLike → Int
  | .date days => days * 86400000000000
  | .datetime us => us * 1000
  | .timestamp ns => ns
  | .datetime64 ns => ns

/-- `pd.Timestamp.min.value`: the smallest nanosecond count representable by a
pandas `Timestamp` (`-(2^63 - 1)`). -/
def pdTimestampMinNs : Int := -9223372036854775807

/-- `pd.Timestamp.max.value`: the largest nanosecond count representable by a
pandas `Timestamp` (`2^63 - 1`). -/
def pdTimestampMaxNs : Int := 9223372036854775807

/-- `Scenario.validate_start_end_date` (scenario.py lines 146-166): convert
the supplied value through `pd.Timestamp(v).to_datetime64()` to a
`numpy.datetime64`, re-raising the `ValueError` of an unconvertible value with
a descriptive message.  `pd.Timestamp` represents instants as 64-bit
nanosecond counts and raises `OutOfBoundsDatetime` (a `ValueError`) for a
value outside `[Timestamp.min, Timestamp.max]`; conversion of the accepted
input kinds fails in exactly that case. -/
def validate_start_end_date (v : DatetimeLike) : Except String Datetime64 :=
  if pdTimestampMinNs ≤ v.toNs ∧ v.toNs ≤ pdTimestampMaxNs then
    .ok ⟨v.toNs⟩
  else
    .error "Cannot convert to a numpy datetime64 object."

/-- The input parameters of the pydantic `Scenario` model (scenario.py lines
106-134), with the source's default values for the optional fields.  Plotting
and export parameters that no claim touches are carried verbatim. -/
structure ScenarioInput where
  scenario_name : String
  stops_df : List StopRow
  in_field : String
  out_field : String
  start_analysis_dt : DatetimeLike
  end_analysis_dt : DatetimeLike
  cat_field : Option String := none
  bin_size_minutes : Int := 60
  cats_to_exclude : Option (List String) := none
  occ_weight_field : Option String := none
  percentiles : List Rat := [0.25, 0.5, 0.75, 0.95, 0.99]
  nonstationary_stats : Bool := true
  stationary_stats : Bool := true
  edge_bins : EdgeBinsEnum := .FRACTIONAL
  output_path : String := "."
  export_bydatetime_csv : Bool := false
  export_summaries_csv : Bool := false
  make_all_dow_plots : Bool := true
  make_all_week_plots : Bool := true
  export_all_dow_plots : Bool := false
  export_all_week_plots : Bool := false
  cap : Option Int := none
  xlabel : Option String := some "Hour"
  ylabel : Option String := some "Patients"
  verbosity : Int := VerbosityEnum.WARNING.toInt
deriving Repr

/-- A validated `Scenario` object: the fields after pydantic validation, with
the analysis dates converted to `numpy.datetime64` and the attribute
`stops_preprocessed_df` populated by the `preprocess_stops_df` model
validator.  (`hills` stays `None` until `make_hills` runs and is omitted.) -/
structure Scenario where
  scenario_name : String
  stops_df : List StopRow
  in_field : String
  out_field : String
  start_analysis_dt : Datetime64
  end_analysis_dt : Datetime64
  cat_field : Option String
  bin_size_minutes : Int
  percentiles : List Rat
  nonstationary_stats : Bool
  stationary_stats : Bool
  edge_bins : EdgeBinsEnum
  stops_preprocessed_df : List StopRow
deriving DecidableEq, Repr

/-- Pydantic validation of a `Scenario` (scenario.py lines 32-235): the field
validators run in field-declaration order (`start_analysis_dt`,
`end_analysis_dt`, `bin_size_minutes`, `percentiles`), then the `after` model
validators in declaration order (`date_relationship`, `preprocess_stops_df`).
The first failure aborts construction with its error (the `Except` binds are
written as explicit matches). -/
def Scenario.construct (inp : ScenarioInput) : Except String Scenario :=
  match validate_start_end_date inp.start_analysis_dt with
  | .error m => .error m
  | .ok start_np =>
    match validate_start_end_date inp.end_analysis_dt with
    | .error m => .error m
    | .ok end_np =>
      match bin_size_minutes_divides inp.bin_size_minutes with
      | .error m => .error m
      | .ok bsm =>
        match percentiles_validate inp.percentiles with
        | .error m => .error m
        | .ok pcts =>
          match date_relationship start_np.ns end_np.ns with
          | .error m => .error m
          | .ok _ =>
            .ok
              { scenario_name := inp.scenario_name
                stops_df := inp.stops_df
                in_field := inp.in_field
                out_field := inp.out_field
                start_analysis_dt := start_np
                end_analysis_dt := end_np
                cat_field := inp.cat_field
                bin_size_minutes := bsm
                percentiles := pcts
                nonstationary_stats := inp.nonstationary_stats
                stationary_stats := inp.stationary_stats
                edge_bins := inp.edge_bins
                stops_preprocessed_df :=
                  preprocess_stops_df inp.cat_field start_np.ns end_np.ns
                    inp.stops_df }

/-- The computed summary tables stored in `hills`, one slice per flow metric;
each slice is indexed by the `by_category` and `stationary` flags.  `α` is the
type of one summary table. -/
structure HillsSummaries (α : Type) where
  arrivals : Bool → Bool → α
  departures : Bool → Bool → α
  occupancy : Bool → Bool → α

/-- Modelled from the spec: `hm.hills.get_summary_df`, the Query Facade, is
not under src/ (only its caller `Scenario.get_summary_df` is).  Per the spec
it returns "a requested slice of the above tables selected by metric name
(arrivals/departures/occupancy, tolerant of unambiguous single-letter
abbreviations), by-category flag, and stationary/nonstationary flag". -/
def hills_summary_slice {α : Type} (hills : HillsSummaries α)
    (flow_metric : String) (by_category stationary : Bool) : Option α :=
  if flow_metric = "arrivals" || flow_metric = "a" then
    some (hills.arrivals by_category stationary)
  else if flow_metric = "departures" || flow_metric = "d" then
    some (hills.departures by_category stationary)
  else if flow_metric = "occupancy" || flow_metric = "o" then
    some (hills.occupancy by_category stationary)
  else
    none

/-- `Scenario.get_summary_df` (scenario.py lines 292-313): delegates to
`hm.hills.get_summary_df(self.hills, flow_metric='o', by_category=by_category,
stationary=stationary)` — line 312 passes the literal `'o'`, not the
`flow_metric` argument. -/
def Scenario.get_summary_df {α : Type} (hills : HillsSummaries α)
    (flow_metric : String := "occupancy") (by_category : Bool := true)
    (stationary : Bool := false) : Option α :=
  hills_summary_slice hills "o" by_category stationary

/-- A Python `dict` with `String` keys, as an association list in insertion
order with distinct keys; `lookup` is `d[k]` returning `None` for an absent
key. -/
def PDict (V : Type) : Type := List (String × V)

/-- Python `d[k]` (as `Option`). -/
def PDict.lookup {V : Type} (d : PDict V) (k : String) : Option V :=
  (List.find? (fun kv => kv.1 == k) d).map (·.2)

/-- Length of a Python dict (`len(d)`). -/
def PDict.length {V : Type} (d : PDict V) : Nat := List.length d

/-- `create_scenario` (scenario.py lines 339-368), restricted to the merging
of the parameter sources (the trailing `Scenario(**params)` call is
`Scenario.construct` on the merged parameters): start from an empty `params`
dict, `update` it with `params_dict` when that is not `None`, then with the
dict loaded from the TOML file when a path was given (`toml_params` is that
dict), then with `kwargs` when any keyword arguments were passed.  Python
`base.update(overlay)` makes `k` look up to `overlay[k]` when `k in overlay`
and to the previous `base[k]` otherwise; the result is returned as the merged
lookup function. -/
def create_scenario {V : Type} (params_dict : Option (PDict V))
    (toml_params : Option (PDict V)) (kwargs : PDict V) :
    String → Option V :=
  let params : String → Option V := fun _ => none
  let params : String → Option V :=
    match params_dict with
    | some d => fun k => (d.lookup k).orElse fun _ => params k
    | none => params
  let params : String → Option V :=
    match toml_params with
    | some d => fun k => (d.lookup k).orElse fun _ => params k
    | none => params
  let params : String → Option V :=
    if kwargs.length > 0 then
      fun k => (kwargs.lookup k).orElse fun _ => params k
    else params
  params

/-- Concrete summaries used to evaluate the query facade: the three metric
slices are the distinguishable tables 1 (arrivals), 2 (departures),
3 (occupancy). -/
def sampleHills : HillsSummaries Nat :=
  { arrivals := fun _ _ => 1
    departures := fun _ _ => 2
    occupancy := fun _ _ => 3 }

/-- Concrete scenario input: one stop from minute 10 to minute 90 of
1970-01-01, analysed over that whole day. -/
def sampleInput : ScenarioInput :=
  { scenario_name := "sample"
    stops_df := [⟨some 600000000000, some 5400000000000, none, [7]⟩]
    in_field := "entry_ts"
    out_field := "exit_ts"
    start_analysis_dt := .date 0
    end_analysis_dt := .date 1
    percentiles := [0, 1] }

/-- The validated scenario that `Scenario.construct` produces from
`sampleInput`. -/
def sampleScenario : Scenario :=
  { scenario_name := "sample"
    stops_df := [⟨some 600000000000, some 5400000000000, none, [7]⟩]
    in_field := "entry_ts"
    out_field := "exit_ts"
    start_analysis_dt := ⟨0⟩
    end_analysis_dt := ⟨86400000000000⟩
    cat_field := none
    bin_size_minutes := 60
    percentiles := [0, 1]
    nonstationary_stats := true
    stationary_stats := true
    edge_bins := .FRACTIONAL
    stops_preprocessed_df := [⟨some 600000000000, some 5400000000000, none, []⟩] }

/-- Concrete scenario input whose single stop record has exit (5) before
entry (10), both inside the analysis window `[0, 100)`. -/
def inconsistentInput : ScenarioInput :=
  { scenario_name := "cex"
    stops_df := [⟨some 10, some 5, none, []⟩]
    in_field := "entry_ts"
    out_field := "exit_ts"
    start_analysis_dt := .datetime64 0
    end_analysis_dt := .datetime64 100
    percentiles := [0, 1] }

/-- Concrete scenario input that supplies only the required parameters, so
every optional field keeps its default. -/
def defaultsProbe : ScenarioInput :=
  { scenario_name := "defaults"
    stops_df := []
    in_field := "entry_ts"
    out_field := "exit_ts"
    start_analysis_dt := .date 0
    end_analysis_dt := .date 1 }

/-! ## Helper lemmas -/

/-- Closed form of `percentiles_validate`: the whole list is returned
unchanged when every element lies in `[0, 1]`, otherwise validation fails
with the bound-violation message. -/
theorem percentiles_validate_eq (ps : List Rat) :
    percentiles_validate ps =
      if ∀ p ∈ ps, 0 ≤ p ∧ p ≤ 1 then .ok ps
      else .error "Input should be less than or equal to 1 and greater than or equal to 0" := by
  induction ps with
  | nil => simp [percentiles_validate]
  | cons p ps ih =>
    simp only [percentiles_validate, validate_percentile]
    by_cases hp : 0 ≤ p ∧ p ≤ 1
    · rw [if_pos hp, ih]
      by_cases hps : ∀ q ∈ ps, 0 ≤ q ∧ q ≤ 1
      · rw [if_pos hps, if_pos (by simpa [hp] using hps)]
      · rw [if_neg hps, if_neg (by simp only [List.mem_cons]; intro hall; exact hps fun q hq => hall q (Or.inr hq))]
    · rw [if_neg hp, if_neg (fun hall => hp (hall p (List.mem_cons_self p ps)))]

/-- Membership characterization of the preprocessed frame. -/
theorem mem_preprocess_stops_df (cat_field : Option String) (s e : Int)
    (stops_df : List StopRow) (r : StopRow) :
    r ∈ preprocess_stops_df cat_field s e stops_df ↔
      ∃ r0 ∈ stops_df, r = projectRow cat_field r0 ∧
        keepRow s e r0 = true := by
  unfold preprocess_stops_df
  rw [List.mem_filter]
  simp only [List.mem_map]
  constructor
  · rintro ⟨⟨r0, hr0, rfl⟩, hkeep⟩
    refine ⟨r0, hr0, rfl, ?_⟩
    simpa [keepRow, projectRow] using hkeep
  · rintro ⟨r0, hr0, rfl, hkeep⟩
    exact ⟨⟨r0, hr0, rfl⟩, by simpa [keepRow, projectRow] using hkeep⟩

/-! ## Claims -/

/-- C2: `stops_preprocessed_df` contains exactly the (projected) input
records with non-missing entry and exit timestamps, entry strictly before
`end_analysis_dt`, and exit at or after `start_analysis_dt`; in particular
any visit fully outside `[start, end)` is excluded. -/
theorem preprocess_keeps_exactly_overlapping (cat_field : Option String)
    (start_analysis_dt end_analysis_dt : Int) (stops_df : List StopRow) :
    preprocess_stops_df cat_field start_analysis_dt end_analysis_dt stops_df =
      (stops_df.filter fun r =>
        match r.entry?, r.exit? with
        | some a, some b => decide (a < end_analysis_dt) && decide (start_analysis_dt ≤ b)
        | _, _ => false).map (projectRow cat_field) := by
  unfold preprocess_stops_df
  induction stops_df with
  | nil => rfl
  | cons r rs ih =>
    rcases hentry : r.entry? with _ | a <;> rcases hexit : r.exit? with _ | b <;>
      simp [List.filter_cons, keepRow, optLtNaT, optGeNaT, projectRow, hentry, hexit, ih]
    by_cases ha : a < end_analysis_dt <;> by_cases hb : start_analysis_dt ≤ b <;>
      simp [ha, hb, ih, projectRow, hentry, hexit]

/-- C4: for positive `bin_size_minutes`, the validator raises exactly when
the value does not divide 1440 with no remainder. -/
theorem bin_size_minutes_divides_iff (v : Int) (hv : 0 < v) :
    (∃ m, bin_size_minutes_divides v = .error m) ↔ ¬ (v ∣ 1440) := by
  unfold bin_size_minutes_divides
  have h0 : 0 ≤ 1440 % v := Int.emod_nonneg 1440 (by omega)
  constructor
  · rintro ⟨m, hm⟩ hdvd
    have hz : 1440 % v = 0 := Int.emod_eq_zero_of_dvd hdvd
    rw [hz] at hm
    simp at hm
  · intro hnd
    have hne : 1440 % v ≠ 0 := fun h => hnd (Int.dvd_of_emod_eq_zero h)
    rw [if_pos (lt_of_le_of_ne h0 (Ne.symm hne))]
    exact ⟨_, rfl⟩

/-- Witness for C4 at `bin_size_minutes = 7`, which does not divide 1440. -/
theorem bin_size_minutes_divides_iff_witness :
    (0 : Int) < 7 ∧ ∃ m, bin_size_minutes_divides 7 = .error m :=
  ⟨by norm_num, (bin_size_minutes_divides_iff 7 (by norm_num)).mpr (by norm_num)⟩

/-- C5: the `date_relationship` model validator raises exactly when
`end_analysis_dt <= start_analysis_dt`, enforcing `start < end`. -/
theorem date_relationship_iff (start_analysis_dt end_analysis_dt : Int) :
    (∃ m, date_relationship start_analysis_dt end_analysis_dt = .error m) ↔
      end_analysis_dt ≤ start_analysis_dt := by
  unfold date_relationship
  by_cases h : end_analysis_dt ≤ start_analysis_dt
  · simp [h]
  · simp [h]

/-- C6: percentile validation fails exactly when some requested percentile
lies outside `[0, 1]`, and accepts the list unchanged otherwise. -/
theorem percentiles_validate_spec (ps : List Rat) :
    ((∃ m, percentiles_validate ps = .error m) ↔ ∃ p ∈ ps, p < 0 ∨ 1 < p) ∧
      (percentiles_validate ps = .ok ps ↔ ∀ p ∈ ps, 0 ≤ p ∧ p ≤ 1) := by
  rw [percentiles_validate_eq]
  by_cases h : ∀ p ∈ ps, 0 ≤ p ∧ p ≤ 1
  · rw [if_pos h]
    constructor
    · constructor
      · rintro ⟨m, hm⟩; exact Except.noConfusion hm
      · rintro ⟨p, hp, hout | hout⟩
        · exact absurd hout (not_lt.mpr (h p hp).1)
        · exact absurd hout (not_lt.mpr (h p hp).2)
    · exact ⟨fun _ => h, fun _ => rfl⟩
  · rw [if_neg h]
    constructor
    · constructor
      · intro _
        push_neg at h
        rcases h with ⟨p, hp, hout⟩
        by_cases h0 : 0 ≤ p
        · exact ⟨p, hp, Or.inr (hout h0)⟩
        · exact ⟨p, hp, Or.inl (not_le.mp h0)⟩
      · intro _; exact ⟨_, rfl⟩
    · constructor
      · intro hm; exact Except.noConfusion hm
      · intro hall; exact absurd hall h

/-- C1 (code bug): requesting the 'arrivals' summary through
`Scenario.get_summary_df` returns the occupancy slice, not the arrivals
slice, because scenario.py line 312 forwards the literal `'o'` instead of the
requested `flow_metric`. -/
theorem get_summary_df_arrivals_returns_occupancy :
    Scenario.get_summary_df sampleHills "arrivals" true false = some 3 ∧
      hills_summary_slice sampleHills "arrivals" true false = some 1 ∧
      Scenario.get_summary_df sampleHills "arrivals" true false ≠
        hills_summary_slice sampleHills "arrivals" true false := by
  decide

/-- C3 (amended): the front-end applies no exit-before-entry check; a record
whose exit precedes its entry is retained in `stops_preprocessed_df` whenever
its timestamps are non-missing, its entry is before `end_analysis_dt` and its
exit at or after `start_analysis_dt`. -/
theorem inconsistent_record_retained (cat_field : Option String)
    (start_analysis_dt end_analysis_dt : Int) (stops_df : List StopRow)
    (r : StopRow) (a b : Int) (hmem : r ∈ stops_df)
    (hentry : r.entry? = some a) (hexit : r.exit? = some b)
    (hinconsistent : b < a) (hlt : a < end_analysis_dt)
    (hge : start_analysis_dt ≤ b) :
    projectRow cat_field r ∈
      preprocess_stops_df cat_field start_analysis_dt end_analysis_dt
        stops_df := by
  unfold preprocess_stops_df
  refine List.mem_filter.mpr ⟨List.mem_map_of_mem _ hmem, ?_⟩
  simp [keepRow, optLtNaT, optGeNaT, projectRow, hentry, hexit, hlt, hge]

/-- Witness for the amended C3 at the record ⟨entry 10, exit 5⟩ and window
`[0, 100)`. -/
theorem inconsistent_record_retained_witness :
    ((5 : Int) < 10) ∧
      projectRow none ⟨some 10, some 5, none, []⟩ ∈
        preprocess_stops_df none 0 100 [⟨some 10, some 5, none, []⟩] :=
  ⟨by norm_num,
    inconsistent_record_retained none 0 100 [⟨some 10, some 5, none, []⟩]
      ⟨some 10, some 5, none, []⟩ 10 5 (by decide) rfl rfl (by decide)
      (by decide) (by decide)⟩

/-- Counterexample to C3 as stated: Scenario construction on
`inconsistentInput` succeeds and hands the core a `stops_preprocessed_df`
containing the record with exit 5 < entry 10. -/
theorem no_exit_before_entry_rejection :
    ((5 : Int) < 10) ∧
      Scenario.construct inconsistentInput =
        .ok
          { scenario_name := "cex"
            stops_df := [⟨some 10, some 5, none, []⟩]
            in_field := "entry_ts"
            out_field := "exit_ts"
            start_analysis_dt := ⟨0⟩
            end_analysis_dt := ⟨100⟩
            cat_field := none
            bin_size_minutes := 60
            percentiles := [0, 1]
            nonstationary_stats := true
            stationary_stats := true
            edge_bins := .FRACTIONAL
            stops_preprocessed_df := [⟨some 10, some 5, none, []⟩] } := by
  decide

/-- C7: Scenario construction never mutates the caller's `stops_df`: the
validated scenario holds the input frame unchanged, the preprocessing having
operated on a fresh projected copy. -/
theorem construct_preserves_stops_df (inp : ScenarioInput) (sc : Scenario)
    (h : Scenario.construct inp = .ok sc) : sc.stops_df = inp.stops_df := by
  unfold Scenario.construct at h
  split at h
  · exact Except.noConfusion h
  split at h
  · exact Except.noConfusion h
  split at h
  · exact Except.noConfusion h
  split at h
  · exact Except.noConfusion h
  split at h
  · exact Except.noConfusion h
  injection h with h
  rw [← h]

/-- Witness for C7 on `sampleInput`. -/
theorem construct_preserves_stops_df_witness :
    Scenario.construct sampleInput = .ok sampleScenario ∧
      sampleScenario.stops_df = sampleInput.stops_df :=
  ⟨by decide,
    construct_preserves_stops_df sampleInput sampleScenario (by decide)⟩

/-- C8: parameters handed to `Scenario` by `create_scenario` are the union of
the three sources, a keyword argument overriding the TOML value, which
overrides the `params_dict` value. -/
theorem create_scenario_precedence {V : Type}
    (params_dict toml_params kwargs : PDict V) (k : String) :
    create_scenario (some params_dict) (some toml_params) kwargs k =
      ((kwargs.lookup k).orElse fun _ =>
        (toml_params.lookup k).orElse fun _ => params_dict.lookup k) := by
  cases kwargs with
  | nil =>
    have hkw : PDict.lookup ([] : PDict V) k = none := rfl
    cases htm : PDict.lookup toml_params k <;>
      cases hpd : PDict.lookup params_dict k <;>
        simp [create_scenario, PDict.length, hkw, htm, hpd, Option.orElse]
  | cons kv rest =>
    cases hkw : PDict.lookup (kv :: rest) k <;>
      cases htm : PDict.lookup toml_params k <;>
        cases hpd : PDict.lookup params_dict k <;>
          simp [create_scenario, PDict.length, hkw, htm, hpd, Option.orElse]

/-- C9: for every accepted datetime-like input kind, the date validator
yields the `numpy.datetime64` conversion of the value, and it fails with a
descriptive error exactly when the value lies outside the convertible
(`pd.Timestamp`) range. -/
theorem validate_start_end_date_spec (v : DatetimeLike) :
    ((∃ m, validate_start_end_date v = .error m) ↔
      v.toNs < pdTimestampMinNs ∨ pdTimestampMaxNs < v.toNs) ∧
      ∀ d, validate_start_end_date v = .ok d → d = ⟨v.toNs⟩ := by
  unfold validate_start_end_date
  by_cases h : pdTimestampMinNs ≤ v.toNs ∧ v.toNs ≤ pdTimestampMaxNs
  · rw [if_pos h]
    constructor
    · constructor
      · rintro ⟨m, hm⟩; exact Except.noConfusion hm
      · intro hout
        rcases hout with hout | hout
        · exact absurd hout (not_lt.mpr h.1)
        · exact absurd hout (not_lt.mpr h.2)
    · intro d hd
      injection hd with hd
      rw [← hd]
  · rw [if_neg h]
    constructor
    · constructor
      · intro _
        by_cases h1 : pdTimestampMinNs ≤ v.toNs
        · by_cases h2 : v.toNs ≤ pdTimestampMaxNs
          · exact absurd ⟨h1, h2⟩ h
          · exact Or.inr (not_le.mp h2)
        · exact Or.inl (not_le.mp h1)
      · intro _; exact ⟨_, rfl⟩
    · intro d hd
      exact Except.noConfusion hd

/-- Witness for C9 at the numpy datetime64 input `0`. -/
theorem validate_start_end_date_spec_witness :
    validate_start_end_date (.datetime64 0) = .ok ⟨0⟩ ∧
      (⟨0⟩ : Datetime64) = ⟨(DatetimeLike.datetime64 0).toNs⟩ :=
  ⟨by decide,
    (validate_start_end_date_spec (.datetime64 0)).2 ⟨0⟩ (by decide)⟩

/-- C10: a Scenario built without the optional parameters defaults to
`bin_size_minutes = 60`, `edge_bins = FRACTIONAL`,
`percentiles = (0.25, 0.5, 0.75, 0.95, 0.99)`, no category field, no
occupancy-weight field (weight 1.0), and both nonstationary and stationary
statistics enabled. -/
theorem scenario_optional_defaults :
    defaultsProbe.bin_size_minutes = 60 ∧
      defaultsProbe.edge_bins = EdgeBinsEnum.FRACTIONAL ∧
      defaultsProbe.percentiles = [0.25, 0.5, 0.75, 0.95, 0.99] ∧
      defaultsProbe.cat_field = none ∧
      defaultsProbe.occ_weight_field = none ∧
      defaultsProbe.nonstationary_stats = true ∧
      defaultsProbe.stationary_stats = true :=
  ⟨rfl, rfl, rfl, rfl, rfl, rfl, rfl⟩
